import Mathlib

/-!
Shallow embedding of the quiz backend (`backend/api.py` and `backend/sqlite_dal.py`).

Conventions of the embedding:
* Python `float` values (scores, averages) are modelled as `ℚ` with exact arithmetic.
* `datetime.datetime` values are modelled by `UTCTime`: the fields a handler reads
  (`.hour`, `strftime("%A")`) plus an abstract `stamp` giving identity/ordering.
  Each textual `datetime.utcnow()` call site of a handler receives its own
  `UTCTime` argument, in source order; a column default (`default=utcnow`) shares
  the clock reading of its inserting request.
* The SQLAlchemy session is modelled as an explicit `DB` record of row lists plus
  per-table autoincrement counters; a handler maps a `DB` to a result and the `DB`
  as of its last commit.  Raising `HTTPException` is modelled by `Except.error`.
* `Optional` columns and request fields are `Option`; Python truthiness of an
  `Optional[int]` (`if request.time_taken:`) is `≠ none` AND value `≠ 0`, and of an
  `Optional[str]` is `≠ none` AND value `≠ ""`.
-/

/-- Model of a `datetime.datetime` as read by the handlers: `hour` is `.hour`,
`weekday` is `strftime("%A")`, and `stamp` is an abstract total instant used only
for identity and ordering. -/
structure UTCTime where
  hour : Nat
  weekday : String
  stamp : Int
deriving DecidableEq

/-- Model of `fastapi.HTTPException(status_code=..., detail=...)`. -/
structure HTTPError where
  status_code : Nat
  detail : String
deriving DecidableEq

/-- ORM row of table `quiz_topics` (`sqlite_dal.QuizTopic`). -/
structure QuizTopic where
  id : Int
  topic : String
  category : String
  subcategory : String
  creation_timestamp : Option UTCTime
  last_attempt_date : Option UTCTime
deriving DecidableEq

/-- ORM row of table `quiz_questions` (`sqlite_dal.QuizQuestion`); the JSON
`options` column is modelled as a list of strings. -/
structure QuizQuestion where
  id : Int
  question : String
  options : List String
  right_option : String
  topic_id : Int
deriving DecidableEq

/-- ORM row of table `quiz_attempts` (`sqlite_dal.QuizAttempt`). -/
structure QuizAttempt where
  id : Int
  topic_id : Int
  timestamp : Option UTCTime
deriving DecidableEq

/-- ORM row of table `user_profiles` (`sqlite_dal.UserProfile`). -/
structure UserProfile where
  id : Int
  firebase_uid : String
  username : Option String
  email : Option String
  created_at : Option UTCTime
deriving DecidableEq

/-- ORM row of table `user_quiz_results` (`sqlite_dal.UserQuizResult`). -/
structure UserQuizResult where
  id : Int
  user_id : Int
  topic_id : Int
  score : ℚ
  total_questions : Int
  correct_answers : Int
  time_taken : Option Int
  completed : Bool
  started_at : Option UTCTime
  completed_at : Option UTCTime
  day_of_week : Option String
  time_of_day : Option String
  average_time_per_question : Option ℚ
  difficulty_level : Option String
  streak : Int
  quiz_context : Option String
deriving DecidableEq

/-- ORM row of table `user_question_answers` (`sqlite_dal.UserQuestionAnswer`). -/
structure UserQuestionAnswer where
  id : Int
  quiz_result_id : Int
  question_id : Int
  user_answer : Option String
  is_correct : Bool
  time_taken : Option Int
  confidence_level : Option Int
deriving DecidableEq

/-- Database state: the row lists of each table together with the autoincrement
counter that yields the next primary key of each table. -/
structure DB where
  quiz_topics : List QuizTopic
  quiz_questions : List QuizQuestion
  quiz_attempts : List QuizAttempt
  user_profiles : List UserProfile
  user_quiz_results : List UserQuizResult
  user_question_answers : List UserQuestionAnswer
  next_topic_id : Int
  next_question_id : Int
  next_user_id : Int
  next_result_id : Int
  next_answer_id : Int
deriving DecidableEq

/-- Request model `QuestionAnswerSubmit` of `api.py`. -/
structure QuestionAnswerSubmit where
  question_id : Int
  user_answer : String
  is_correct : Bool
  time_taken : Option Int
  confidence_level : Option Int
deriving DecidableEq

/-- Request model `QuizResultSubmit` of `api.py`. -/
structure QuizResultSubmit where
  firebase_uid : String
  topic_id : Int
  score : ℚ
  total_questions : Int
  correct_answers : Int
  time_taken : Option Int
  completed : Bool
  started_at : Option UTCTime
  answers : List QuestionAnswerSubmit
  quiz_context : Option String
deriving DecidableEq

/-- One question of a quiz produced by the external generation routine
(`generate_quiz` of `backend/utils.py`, outside this repository's persistence
layer): the handler reads `q["question"]`, `q["options"]`, `q["right_option"]`. -/
structure GeneratedQuestion where
  question : String
  options : List String
  right_option : String
deriving DecidableEq

/-- A quiz as returned by the external generation routine: the handler reads
`quiz["topic"]`, `quiz["category"]`, `quiz["subcategory"]`, `quiz["questions"]`,
and returns the whole `quiz` dict as the response body. -/
structure GeneratedQuiz where
  topic : String
  category : String
  subcategory : String
  questions : List GeneratedQuestion
deriving DecidableEq

/-- Response body of `GET /quiz/\x7btopic_id\x7d`: one entry per question row. -/
structure QuizQuestionEntry where
  question : String
  options : List String
  right_option : String
deriving DecidableEq

/-- Response body of `GET /quiz/\x7btopic_id\x7d`. -/
structure GetQuizResponse where
  topic : String
  category : String
  subcategory : String
  creation_timestamp : Option UTCTime
  questions : List QuizQuestionEntry
deriving DecidableEq

/-- Response body of `POST /quiz/start`. -/
structure StartQuizResponse where
  status : String
  quiz_result_id : Int
  topic : String
  total_questions : Int
deriving DecidableEq

/-- Response body of `POST /quiz/submit`. -/
structure SubmitQuizResponse where
  status : String
  quiz_result_id : Int
  score : ℚ
  correct_answers : Int
  total_questions : Int
  difficulty_level : Option String
  completed_at : Option UTCTime
  day_of_week : Option String
  time_of_day : Option String
deriving DecidableEq

/-- One entry of the `quiz_history` list of `GET /user/\x7bfirebase_uid\x7d/quiz-history`. -/
structure HistoryEntry where
  quiz_result_id : Int
  topic_id : Int
  topic_name : String
  category : String
  subcategory : String
  score : ℚ
  correct_answers : Int
  total_questions : Int
  time_taken : Option Int
  completed_at : Option UTCTime
  day_of_week : Option String
  time_of_day : Option String
  difficulty_level : Option String
  average_time_per_question : Option ℚ
deriving DecidableEq

/-- The `statistics` object of `GET /user/\x7bfirebase_uid\x7d/quiz-history`; the three
Python counting dicts are insertion-ordered association lists. -/
structure HistoryStats where
  total_quizzes : Nat
  average_score : ℚ
  quizzes_by_day : List (String × Nat)
  quizzes_by_time : List (String × Nat)
  quizzes_by_difficulty : List (String × Nat)
deriving DecidableEq

/-- Response body of `GET /user/\x7bfirebase_uid\x7d/quiz-history`. -/
structure HistoryResponse where
  status : String
  quiz_history : List HistoryEntry
  statistics : HistoryStats
deriving DecidableEq

/-- Time-of-day bucketing of `submit_quiz_result` (`api.py` lines 430-438):
chained comparisons `5 <= hour < 12` etc. on `current_time.hour`. -/
def timeOfDay (hour : Nat) : String :=
  if 5 ≤ hour ∧ hour < 12 then "Morning"
  else if 12 ≤ hour ∧ hour < 17 then "Afternoon"
  else if 17 ≤ hour ∧ hour < 21 then "Evening"
  else "Night"

/-- Average-time computation of `submit_quiz_result` (`api.py` lines 441-443):
`avg = None; if request.time_taken and request.total_questions > 0: avg = time_taken / total_questions`.
Python truthiness of the `Optional[int]` makes both `None` and `0` skip the branch. -/
def avgTimePerQuestion (time_taken : Option Int) (total_questions : Int) : Option ℚ :=
  match time_taken with
  | none => none
  | some t => if t ≠ 0 ∧ total_questions > 0 then some ((t : ℚ) / (total_questions : ℚ)) else none

/-- Difficulty classification of `submit_quiz_result` (`api.py` lines 446-453):
`difficulty_level = None` then an if/elif/else on `request.score` always assigns. -/
def difficultyLevel (score : ℚ) : Option String :=
  if score ≥ 8/10 then some "Easy"
  else if score ≥ 6/10 then some "Medium"
  else some "Hard"

/-- Comparator of `sorted(request.answers, key=lambda x: x.question_id)`; `mergeSort`
with it is a stable ascending sort, as Python's `sorted`. -/
def byQuestionId (a b : QuestionAnswerSubmit) : Bool :=
  decide (a.question_id ≤ b.question_id)

/-- Streak computation of `submit_quiz_result` (`api.py` lines 456-465):
`streak = 0; if request.answers:` sort ascending by `question_id`, then walk the
reversed list counting `is_correct` answers until the first incorrect one
(`takeWhile` on the reversed list). -/
def streakOf (answers : List QuestionAnswerSubmit) : Int :=
  match answers with
  | [] => 0
  | _ :: _ =>
    let sorted_answers := answers.mergeSort byQuestionId
    ((sorted_answers.reverse.takeWhile (fun a => a.is_correct)).length : Int)

/-- The new `QuizQuestion` rows added by the quiz-generation handlers
(`api.py` lines 85-92): one row per generated question, consecutive ids from
`nid`, all pointing at topic `tid`. -/
def insertQuestions (qs : List GeneratedQuestion) (tid : Int) (nid : Int) : List QuizQuestion :=
  match qs with
  | [] => []
  | q :: rest => ⟨nid, q.question, q.options, q.right_option, tid⟩ :: insertQuestions rest tid (nid + 1)

/-- The new `UserQuestionAnswer` rows added by `submit_quiz_result`
(`api.py` lines 505-516): one row per submitted answer, in submission order,
consecutive ids from `nid`, all pointing at quiz result `rid`.  The guarded
`confidence = answer.confidence_level if hasattr(answer, 'confidence_level') else None`
always takes the first branch since the request model declares the field. -/
def insertAnswers (answers : List QuestionAnswerSubmit) (rid : Int) (nid : Int) : List UserQuestionAnswer :=
  match answers with
  | [] => []
  | a :: rest =>
    ⟨nid, rid, a.question_id, some a.user_answer, a.is_correct, a.time_taken, a.confidence_level⟩
      :: insertAnswers rest rid (nid + 1)

/-- In-place update of the first row matched by `p`, as a SQLAlchemy attribute
assignment on the object returned by `.query(...).first()` does. -/
def updateFirst (p : α → Bool) (f : α → α) : List α → List α
  | [] => []
  | x :: xs => if p x then f x :: xs else x :: updateFirst p f xs

/-- Handler of `POST /generate-quiz` (`api.py` `create_quiz`), specialised to the
interesting case: the external `generate_quiz` routine is represented by the
`quiz` it would return, `utc` is this request's clock reading (used by the
`creation_timestamp` column default).  The body of the `try` block validates the
difficulty (raising `HTTPException(400, ...)`), then persists one topic row and
one question row per generated question and returns the generated quiz itself;
the trailing `except Exception` clause catches any exception raised inside the
`try` block, including that `HTTPException` (which is not a
`requests.exceptions.HTTPError`), and re-raises it as a 500 whose detail embeds
`str(e)`, which for a Starlette `HTTPException` is `"\x7bstatus_code\x7d: \x7bdetail\x7d"`. -/
def create_quiz (difficulty : String) (quiz : GeneratedQuiz) (utc : UTCTime) (db : DB) :
    Except HTTPError GeneratedQuiz × DB :=
  let inner : Except HTTPError GeneratedQuiz × DB :=
    if difficulty ∉ (["easy", "medium", "hard"] : List String) then
      (.error ⟨400, "Invalid difficulty level. Choose from: easy, medium, hard"⟩, db)
    else
      let tid := db.next_topic_id
      let topicRow : QuizTopic := ⟨tid, quiz.topic, quiz.category, quiz.subcategory, some utc, none⟩
      let qrows := insertQuestions quiz.questions tid db.next_question_id
      (.ok quiz,
        { db with
            quiz_topics := db.quiz_topics ++ [topicRow],
            quiz_questions := db.quiz_questions ++ qrows,
            next_topic_id := db.next_topic_id + 1,
            next_question_id := db.next_question_id + (quiz.questions.length : Int) })
  match inner with
  | (.error e, dbe) =>
      (.error ⟨500, "An unexpected error occurred: " ++ toString e.status_code ++ ": " ++ e.detail⟩, dbe)
  | ok => ok

/-- Handler of `GET /quiz/\x7btopic_id\x7d` (`api.py` `get_quiz`): 404 when no topic row
has the requested id, otherwise the topic's fields plus one entry per question
row with that `topic_id`; a pure read, the session is never mutated. -/
def get_quiz (topic_id : Int) (db : DB) : Except HTTPError GetQuizResponse × DB :=
  match db.quiz_topics.find? (fun t => t.id == topic_id) with
  | none => (.error ⟨404, "Quiz topic not found"⟩, db)
  | some topic =>
    let questions := db.quiz_questions.filter (fun q => q.topic_id == topic_id)
    (.ok
      { topic := topic.topic,
        category := topic.category,
        subcategory := topic.subcategory,
        creation_timestamp := topic.creation_timestamp,
        questions := questions.map (fun q => ⟨q.question, q.options, q.right_option⟩) },
      db)

/-- Handler of `POST /quiz/start` (`api.py` `start_quiz`): an unknown
`firebase_uid` is created on the spot and committed (so it persists even if the
subsequent topic lookup 404s); then an in-progress (`completed=False`)
`UserQuizResult` is added with `total_questions = len(topic.questions)`.
`utc` is this request's clock reading (the explicit `utcnow()` of line 384 and
the `created_at` column default). -/
def start_quiz (firebase_uid : String) (topic_id : Int) (utc : UTCTime) (db : DB) :
    Except HTTPError StartQuizResponse × DB :=
  let found := db.user_profiles.find? (fun u => u.firebase_uid == firebase_uid)
  let user : UserProfile :=
    match found with
    | some u => u
    | none => ⟨db.next_user_id, firebase_uid, none, none, some utc⟩
  let db1 : DB :=
    match found with
    | some _ => db
    | none =>
      { db with
          user_profiles := db.user_profiles ++ [user],
          next_user_id := db.next_user_id + 1 }
  match db1.quiz_topics.find? (fun t => t.id == topic_id) with
  | none => (.error ⟨404, "Quiz topic not found"⟩, db1)
  | some topic =>
    let nq := (db1.quiz_questions.filter (fun q => q.topic_id == topic_id)).length
    let qr : UserQuizResult :=
      ⟨db1.next_result_id, user.id, topic_id, 0, (nq : Int), 0, none, false, some utc,
        none, none, none, none, none, 0, none⟩
    (.ok { status := "success", quiz_result_id := qr.id, topic := topic.topic, total_questions := (nq : Int) },
      { db1 with
          user_quiz_results := db1.user_quiz_results ++ [qr],
          next_result_id := db1.next_result_id + 1 })

/-- Predicate of the upsert query of `submit_quiz_result` (`api.py` lines 419-423):
`user_id == user.id, topic_id == request.topic_id, completed == False`. -/
def incompleteFor (uid tid : Int) (r : UserQuizResult) : Bool :=
  r.user_id == uid && r.topic_id == tid && r.completed == false

/-- Handler of `POST /quiz/submit` (`api.py` `submit_quiz_result`).  `utc1`,
`utc2`, `utc3` are the three `datetime.utcnow()` call sites in source order:
line 416 (topic's `last_attempt_date`), line 426 (`current_time`, used for
`completed_at`, `day_of_week`, `time_of_day`), line 477 (fallback `started_at`
of a newly created row).  Unknown user or topic 404s before any mutation; then
the topic's `last_attempt_date` is set, an existing incomplete result row for
(user, topic) is updated in place — otherwise a new completed row is added —
and one `UserQuestionAnswer` row is appended per submitted answer. -/
def submit_quiz_result (req : QuizResultSubmit) (utc1 utc2 utc3 : UTCTime) (db : DB) :
    Except HTTPError SubmitQuizResponse × DB :=
  match db.user_profiles.find? (fun u => u.firebase_uid == req.firebase_uid) with
  | none => (.error ⟨404, "User not found"⟩, db)
  | some user =>
  match db.quiz_topics.find? (fun t => t.id == req.topic_id) with
  | none => (.error ⟨404, "Quiz topic not found"⟩, db)
  | some _ =>
    let topics2 := updateFirst (fun t => t.id == req.topic_id)
      (fun t => { t with last_attempt_date := some utc1 }) db.quiz_topics
    let day_of_week := utc2.weekday
    let time_of_day := timeOfDay utc2.hour
    let avg_time_per_question := avgTimePerQuestion req.time_taken req.total_questions
    let difficulty_level := difficultyLevel req.score
    let streak := streakOf req.answers
    let found := db.user_quiz_results.find? (incompleteFor user.id req.topic_id)
    let qr : UserQuizResult :=
      match found with
      | none =>
        ⟨db.next_result_id, user.id, req.topic_id, req.score, req.total_questions,
          req.correct_answers, req.time_taken, req.completed,
          some (req.started_at.getD utc3), some utc2, some day_of_week,
          some time_of_day, avg_time_per_question, difficulty_level, streak,
          req.quiz_context⟩
      | some r0 =>
        { r0 with
            score := req.score,
            total_questions := req.total_questions,
            correct_answers := req.correct_answers,
            time_taken := req.time_taken,
            completed := req.completed,
            completed_at := some utc2,
            day_of_week := some day_of_week,
            time_of_day := some time_of_day,
            average_time_per_question := avg_time_per_question,
            difficulty_level := difficulty_level,
            streak := streak,
            quiz_context := req.quiz_context }
    let results2 : List UserQuizResult :=
      match found with
      | none => db.user_quiz_results ++ [qr]
      | some _ => updateFirst (incompleteFor user.id req.topic_id) (fun _ => qr) db.user_quiz_results
    let next_result_id2 : Int :=
      match found with
      | none => db.next_result_id + 1
      | some _ => db.next_result_id
    let answers2 := db.user_question_answers ++ insertAnswers req.answers qr.id db.next_answer_id
    (.ok
      { status := "success",
        quiz_result_id := qr.id,
        score := qr.score,
        correct_answers := qr.correct_answers,
        total_questions := qr.total_questions,
        difficulty_level := qr.difficulty_level,
        completed_at := qr.completed_at,
        day_of_week := qr.day_of_week,
        time_of_day := qr.time_of_day },
      { db with
          quiz_topics := topics2,
          user_quiz_results := results2,
          user_question_answers := answers2,
          next_result_id := next_result_id2,
          next_answer_id := db.next_answer_id + (req.answers.length : Int) })

/-- One step of a Python counting dict `d[k] = d.get(k, 0) + 1` on an
insertion-ordered association list: bump an existing key in place, else append. -/
def bumpCount : List (String × Nat) → String → List (String × Nat)
  | [], k => [(k, 1)]
  | (k', n) :: rest, k => if k' = k then (k', n + 1) :: rest else (k', n) :: bumpCount rest k

/-- Lookup in a counting dict, 0 for an absent key (`d.get(k, 0)`). -/
def lookupCount : List (String × Nat) → String → Nat
  | [], _ => 0
  | (k', n) :: rest, k => if k' = k then n else lookupCount rest k

/-- One iteration of the statistics loop of `get_user_quiz_history` (`api.py`
lines 582-596): an entry whose `field` value is truthy (not `None`, not the
empty string) bumps that value's count. -/
def countStep (field : HistoryEntry → Option String) (d : List (String × Nat))
    (e : HistoryEntry) : List (String × Nat) :=
  match field e with
  | some v => if v ≠ "" then bumpCount d v else d
  | none => d

/-- The statistics loop of `get_user_quiz_history` for one of the three dicts. -/
def countByField (field : HistoryEntry → Option String) (entries : List HistoryEntry) :
    List (String × Nat) :=
  entries.foldl (countStep field) []

/-- Comparator of `.order_by(UserQuizResult.completed_at.desc())`: later
`completed_at` first; SQLite sorts `NULL` as smallest, so `DESC` places the
`NULL`s last. -/
def completedAtDesc (a b : UserQuizResult) : Bool :=
  match a.completed_at, b.completed_at with
  | some x, some y => decide (y.stamp ≤ x.stamp)
  | some _, none => true
  | none, some _ => false
  | none, none => true

/-- The `results.append(\x7b...\x7d)` entry of `get_user_quiz_history` (`api.py`
lines 552-570): a row joined with its topic, `"Unknown"` when the topic row is
missing. -/
def mkHistoryEntry (db : DB) (r : UserQuizResult) : HistoryEntry :=
  let topic? := db.quiz_topics.find? (fun t => t.id == r.topic_id)
  { quiz_result_id := r.id,
    topic_id := r.topic_id,
    topic_name := (topic?.map (fun t => t.topic)).getD "Unknown",
    category := (topic?.map (fun t => t.category)).getD "Unknown",
    subcategory := (topic?.map (fun t => t.subcategory)).getD "Unknown",
    score := r.score,
    correct_answers := r.correct_answers,
    total_questions := r.total_questions,
    time_taken := r.time_taken,
    completed_at := r.completed_at,
    day_of_week := r.day_of_week,
    time_of_day := r.time_of_day,
    difficulty_level := r.difficulty_level,
    average_time_per_question := r.average_time_per_question }

/-- Handler of `GET /user/\x7bfirebase_uid\x7d/quiz-history` (`api.py`
`get_user_quiz_history`): 404 for an unknown user, otherwise the user's
completed results ordered by `completed_at` descending, each joined with its
topic, plus statistics computed from that list; a pure read. -/
def get_user_quiz_history (firebase_uid : String) (db : DB) :
    Except HTTPError HistoryResponse × DB :=
  match db.user_profiles.find? (fun u => u.firebase_uid == firebase_uid) with
  | none => (.error ⟨404, "User not found"⟩, db)
  | some user =>
    let quiz_results :=
      (db.user_quiz_results.filter
        (fun r => r.user_id == user.id && r.completed == true)).mergeSort completedAtDesc
    let results := quiz_results.map (mkHistoryEntry db)
    let stats : HistoryStats :=
      { total_quizzes := results.length,
        average_score :=
          if results.isEmpty then 0
          else (results.map (fun r => r.score)).sum / (results.length : ℚ),
        quizzes_by_day := countByField (fun r => r.day_of_week) results,
        quizzes_by_time := countByField (fun r => r.time_of_day) results,
        quizzes_by_difficulty := countByField (fun r => r.difficulty_level) results }
    (.ok { status := "success", quiz_history := results, statistics := stats }, db)

/-- The completed results of a user, as queried by `get_user_quiz_history`
(`api.py` lines 546-549) before ordering. -/
def completedResultsFor (uid : Int) (db : DB) : List UserQuizResult :=
  db.user_quiz_results.filter (fun r => r.user_id == uid && r.completed == true)

theorem insertQuestions_length (qs : List GeneratedQuestion) (tid nid : Int) :
    (insertQuestions qs tid nid).length = qs.length := by
  induction qs generalizing nid with
  | nil => rfl
  | cons q rest ih => simp [insertQuestions, ih]

theorem insertQuestions_fields (qs : List GeneratedQuestion) (tid nid : Int) :
    (insertQuestions qs tid nid).map (fun q => (q.question, q.options, q.right_option, q.topic_id)) =
      qs.map (fun q => (q.question, q.options, q.right_option, tid)) := by
  induction qs generalizing nid with
  | nil => rfl
  | cons q rest ih => simp [insertQuestions, ih]

theorem insertAnswers_length (answers : List QuestionAnswerSubmit) (rid nid : Int) :
    (insertAnswers answers rid nid).length = answers.length := by
  induction answers generalizing nid with
  | nil => rfl
  | cons a rest ih => simp [insertAnswers, ih]

theorem insertAnswers_fields (answers : List QuestionAnswerSubmit) (rid nid : Int) :
    (insertAnswers answers rid nid).map
        (fun a => (a.question_id, a.user_answer, a.is_correct, a.time_taken, a.confidence_level)) =
      answers.map
        (fun a => (a.question_id, some a.user_answer, a.is_correct, a.time_taken, a.confidence_level)) := by
  induction answers generalizing nid with
  | nil => rfl
  | cons a rest ih => simp [insertAnswers, ih]

theorem length_updateFirst (p : α → Bool) (f : α → α) (l : List α) :
    (updateFirst p f l).length = l.length := by
  induction l with
  | nil => rfl
  | cons x xs ih =>
    by_cases hx : p x <;> simp [updateFirst, hx, ih]

theorem updateFirst_append_of_none (p : α → Bool) (f : α → α) (l1 l2 : List α) (a : α)
    (h1 : ∀ x ∈ l1, p x = false) (ha : p a = true) :
    updateFirst p f (l1 ++ a :: l2) = l1 ++ f a :: l2 := by
  induction l1 with
  | nil => simp [updateFirst, ha]
  | cons x xs ih =>
    have hx : p x = false := h1 x (List.mem_cons_self x xs)
    simp only [List.cons_append, updateFirst, hx]
    simp only [Bool.false_eq_true, if_false, List.append_eq]
    rw [ih (fun y hy => h1 y (List.mem_cons_of_mem x hy))]

theorem updateFirst_forall₂_topics (tid : Int) (utc : UTCTime) (ts : List QuizTopic) :
    List.Forall₂
      (fun r r' => r'.id = r.id ∧ r'.topic = r.topic ∧ r'.category = r.category ∧
        r'.subcategory = r.subcategory ∧ r'.creation_timestamp = r.creation_timestamp)
      ts
      (updateFirst (fun t => t.id == tid) (fun t => { t with last_attempt_date := some utc }) ts) := by
  induction ts with
  | nil => exact List.Forall₂.nil
  | cons x xs ih =>
    by_cases hx : (x.id == tid) = true
    · simp only [updateFirst, hx, if_true]
      exact List.Forall₂.cons ⟨rfl, rfl, rfl, rfl, rfl⟩ (List.forall₂_same.mpr
        (fun r _ => ⟨rfl, rfl, rfl, rfl, rfl⟩))
    · simp only [updateFirst, hx, if_false]
      exact List.Forall₂.cons ⟨rfl, rfl, rfl, rfl, rfl⟩ ih

theorem updateFirst_mem_updated_topic (tid : Int) (utc : UTCTime) (ts : List QuizTopic)
    (t0 : QuizTopic) (hf : ts.find? (fun t => t.id == tid) = some t0) :
    ∃ r' ∈ updateFirst (fun t => t.id == tid) (fun t => { t with last_attempt_date := some utc }) ts,
      r'.id = tid ∧ r'.last_attempt_date = some utc := by
  induction ts with
  | nil => simp at hf
  | cons x xs ih =>
    by_cases hx : (x.id == tid) = true
    · refine ⟨{ x with last_attempt_date := some utc }, ?_, ?_, rfl⟩
      · simp [updateFirst, hx]
      · simpa using hx
    · rw [List.find?_cons_of_neg _ (by simpa using hx)] at hf
      obtain ⟨r', hr', hprop⟩ := ih hf
      exact ⟨r', by simp [updateFirst, hx, hr'], hprop⟩

theorem lookupCount_bumpCount (d : List (String × Nat)) (k s : String) :
    lookupCount (bumpCount d k) s =
      if k = s then lookupCount d s + 1 else lookupCount d s := by
  induction d with
  | nil =>
    by_cases h : k = s <;> simp [bumpCount, lookupCount, h]
  | cons p rest ih =>
    obtain ⟨k', n⟩ := p
    by_cases h1 : k' = k
    · subst h1
      by_cases h2 : k' = s <;> simp [bumpCount, lookupCount, h2]
    · by_cases h2 : k' = s
      · subst h2
        have hks : ¬ k = k' := fun h => h1 h.symm
        simp [bumpCount, lookupCount, h1, hks]
      · simp [bumpCount, lookupCount, h1, h2, ih]

theorem lookupCount_countByField_aux (field : HistoryEntry → Option String) (s : String)
    (hs : s ≠ "") (es : List HistoryEntry) (d : List (String × Nat)) :
    lookupCount (es.foldl (countStep field) d) s =
      lookupCount d s + (es.filter (fun e => field e == some s)).length := by
  induction es generalizing d with
  | nil => simp
  | cons e rest ih =>
    rw [List.foldl_cons, ih]
    cases hf : field e with
    | none => simp [countStep, hf]
    | some v =>
      by_cases hv : v = ""
      · subst hv
        have hne : ¬ (some "" == some s) = true := by
          simpa using fun h : "" = s => hs h.symm
        simp [countStep, hf, hne]
      · by_cases hvs : v = s
        · subst hvs
          simp [countStep, hf, hv, lookupCount_bumpCount]
          omega
        · have hne : ¬ (some v == some s) = true := by simpa using hvs
          simp [countStep, hf, hv, lookupCount_bumpCount, hvs, hne]

theorem lookupCount_countByField (field : HistoryEntry → Option String) (s : String)
    (hs : s ≠ "") (es : List HistoryEntry) :
    lookupCount (countByField field es) s = (es.filter (fun e => field e == some s)).length := by
  simpa [countByField, lookupCount] using lookupCount_countByField_aux field s hs es []

theorem lookupCount_countByField_blank_aux (field : HistoryEntry → Option String)
    (es : List HistoryEntry) (d : List (String × Nat)) :
    lookupCount (es.foldl (countStep field) d) "" = lookupCount d "" := by
  induction es generalizing d with
  | nil => simp
  | cons e rest ih =>
    rw [List.foldl_cons, ih]
    cases hf : field e with
    | none => simp [countStep, hf]
    | some v =>
      by_cases hv : v = ""
      · subst hv
        simp [countStep, hf]
      · simp [countStep, hf, hv, lookupCount_bumpCount, hv]

theorem lookupCount_countByField_blank (field : HistoryEntry → Option String)
    (es : List HistoryEntry) :
    lookupCount (countByField field es) "" = 0 := by
  simpa [countByField] using lookupCount_countByField_blank_aux field es []

/-- C2: time-of-day bucketing is total and exhaustive: for every UTC hour
`h < 24` the handler stores `"Morning"` iff `5 ≤ h < 12`, `"Afternoon"` iff
`12 ≤ h < 17`, `"Evening"` iff `17 ≤ h < 21`, and `"Night"` otherwise
(`h < 5` or `21 ≤ h`); exactly one bucket applies to every hour. -/
theorem time_of_day_buckets (h : Nat) (hlt : h < 24) :
    (timeOfDay h = "Morning" ↔ 5 ≤ h ∧ h < 12) ∧
    (timeOfDay h = "Afternoon" ↔ 12 ≤ h ∧ h < 17) ∧
    (timeOfDay h = "Evening" ↔ 17 ≤ h ∧ h < 21) ∧
    (timeOfDay h = "Night" ↔ h < 5 ∨ 21 ≤ h) ∧
    (timeOfDay h = "Morning" ∨ timeOfDay h = "Afternoon" ∨
      timeOfDay h = "Evening" ∨ timeOfDay h = "Night") := by
  interval_cases h <;> exact by decide

/-- Witness for C2 at the concrete hour 9. -/
theorem time_of_day_buckets_witness : timeOfDay 9 = "Morning" :=
  (time_of_day_buckets 9 (by decide)).1.mpr (by decide)

/-- C3: difficulty classification depends only on the submitted score and is
never left unset: `"Easy"` iff `score ≥ 0.8`, `"Medium"` iff
`0.6 ≤ score < 0.8`, `"Hard"` iff `score < 0.6`. -/
theorem difficulty_level_classification (score : ℚ) :
    (difficultyLevel score = some "Easy" ↔ 8/10 ≤ score) ∧
    (difficultyLevel score = some "Medium" ↔ 6/10 ≤ score ∧ score < 8/10) ∧
    (difficultyLevel score = some "Hard" ↔ score < 6/10) ∧
    difficultyLevel score ≠ none := by
  unfold difficultyLevel
  rcases le_or_lt (8/10 : ℚ) score with h1 | h1
  · rw [if_pos (show score ≥ 8/10 from h1)]
    refine ⟨by simpa using h1, ?_, ?_, by simp⟩
    · simp only [Option.some.injEq]
      constructor
      · intro hc; exact absurd hc (by decide)
      · rintro ⟨-, hlt⟩; exact absurd h1 (not_le.mpr hlt)
    · simp only [Option.some.injEq]
      constructor
      · intro hc; exact absurd hc (by decide)
      · intro hlt; exact absurd h1 (not_le.mpr (hlt.trans (by norm_num)))
  · rw [if_neg (not_le.mpr h1)]
    rcases le_or_lt (6/10 : ℚ) score with h2 | h2
    · rw [if_pos h2]
      refine ⟨?_, by simp [h2, h1], ?_, by simp⟩
      · simp only [Option.some.injEq]
        constructor
        · intro hc; exact absurd hc (by decide)
        · intro hge; exact absurd h1 (not_lt.mpr hge)
      · simp only [Option.some.injEq]
        constructor
        · intro hc; exact absurd hc (by decide)
        · intro hlt; exact absurd h2 (not_le.mpr hlt)
    · rw [if_neg (not_le.mpr h2)]
      refine ⟨?_, ?_, by simp [h2], by simp⟩
      · simp only [Option.some.injEq]
        constructor
        · intro hc; exact absurd hc (by decide)
        · intro hge; exact absurd h2 (not_lt.mpr (le_trans (by norm_num) hge))
      · simp only [Option.some.injEq]
        constructor
        · intro hc; exact absurd hc (by decide)
        · rintro ⟨hge, -⟩; exact absurd h2 (not_lt.mpr hge)

/-- Witness for C3 at the concrete score 0.7. -/
theorem difficulty_level_classification_witness :
    difficultyLevel (7/10) = some "Medium" :=
  (difficulty_level_classification (7/10)).2.1.mpr (by norm_num)

/-- Counterexample to C4: a submission supplying `time_taken = 0` with
`total_questions = 5 > 0` stores `None`, not `0 / 5`, because Python's
`if request.time_taken:` is falsy at 0. -/
theorem avg_time_zero_counterexample :
    avgTimePerQuestion (some 0) 5 = none ∧
    avgTimePerQuestion (some 0) 5 ≠ some ((0 : ℚ) / (5 : ℚ)) := by
  constructor
  · rfl
  · intro h
    rw [show ((0 : ℚ) / (5 : ℚ)) = 0 by norm_num] at h
    exact Option.noConfusion h

/-- C4 as amended: `average_time_per_question` equals
`time_taken / total_questions` whenever a NONZERO `time_taken` is supplied and
`total_questions > 0`, and is `None` otherwise — in particular also when the
supplied `time_taken` is 0, since Python truthiness guards the branch; the
division is guarded, so it only ever runs with `total_questions > 0`. -/
theorem avg_time_per_question_guarded (t n : Int) :
    (t ≠ 0 → 0 < n → avgTimePerQuestion (some t) n = some ((t : ℚ) / (n : ℚ))) ∧
    avgTimePerQuestion none n = none ∧
    avgTimePerQuestion (some 0) n = none ∧
    (n ≤ 0 → avgTimePerQuestion (some t) n = none) ∧
    (∀ tt : Option Int, (avgTimePerQuestion tt n).isSome = true → 0 < n) := by
  refine ⟨?_, rfl, ?_, ?_, ?_⟩
  · intro ht hn
    simp [avgTimePerQuestion, ht, hn]
  · simp [avgTimePerQuestion]
  · intro hn
    simp only [avgTimePerQuestion, ite_eq_right_iff]
    intro hc
    exact absurd hc.2 (by omega)
  · intro tt h
    cases tt with
    | none => simp [avgTimePerQuestion] at h
    | some v =>
      by_cases hc : v ≠ 0 ∧ 0 < n
      · exact hc.2
      · simp [avgTimePerQuestion, hc] at h

/-- Witness for the amended C4 at `time_taken = 10`, `total_questions = 4`. -/
theorem avg_time_per_question_guarded_witness :
    avgTimePerQuestion (some 10) 4 = some ((10 : ℚ) / (4 : ℚ)) :=
  (avg_time_per_question_guarded 10 4).1 (by decide) (by decide)

/-- C9: a `/generate-quiz` request with a difficulty outside easy/medium/hard
answers 500, not 400: the 400 `HTTPException` raised inside the `try` block is
caught by the catch-all handler and re-raised as a 500 whose detail embeds the
original message; the database is unchanged, so no topic or question row is
added. -/
theorem create_quiz_invalid_difficulty (difficulty : String) (quiz : GeneratedQuiz)
    (utc : UTCTime) (db : DB)
    (hd : difficulty ∉ (["easy", "medium", "hard"] : List String)) :
    create_quiz difficulty quiz utc db =
      (.error ⟨500,
        "An unexpected error occurred: 400: Invalid difficulty level. Choose from: easy, medium, hard"⟩,
       db) := by
  simp only [create_quiz, if_pos hd]
  rfl

/-- Witness for C9 at the concrete difficulty `"extreme"` on an empty database. -/
theorem create_quiz_invalid_difficulty_witness :
    create_quiz "extreme" ⟨"t", "c", "s", []⟩ ⟨0, "Monday", 0⟩
        ⟨[], [], [], [], [], [], 1, 1, 1, 1, 1⟩ =
      (.error ⟨500,
        "An unexpected error occurred: 400: Invalid difficulty level. Choose from: easy, medium, hard"⟩,
       ⟨[], [], [], [], [], [], 1, 1, 1, 1, 1⟩) :=
  create_quiz_invalid_difficulty "extreme" ⟨"t", "c", "s", []⟩ ⟨0, "Monday", 0⟩
    ⟨[], [], [], [], [], [], 1, 1, 1, 1, 1⟩ (by decide)

/-- C8: a successful generation persists exactly what was generated: one new
`QuizTopic` row holding the quiz's topic/category/subcategory, one new
`QuizQuestion` row per generated question carrying its text, options and right
option with `topic_id` the new topic's id, nothing else changes, and the
response body is the generated quiz itself. -/
theorem create_quiz_persists (difficulty : String) (quiz : GeneratedQuiz)
    (utc : UTCTime) (db : DB)
    (hd : difficulty ∈ (["easy", "medium", "hard"] : List String)) :
    (create_quiz difficulty quiz utc db).1 = .ok quiz ∧
    (create_quiz difficulty quiz utc db).2.quiz_topics =
      db.quiz_topics ++
        [⟨db.next_topic_id, quiz.topic, quiz.category, quiz.subcategory, some utc, none⟩] ∧
    (create_quiz difficulty quiz utc db).2.quiz_questions.length =
      db.quiz_questions.length + quiz.questions.length ∧
    (create_quiz difficulty quiz utc db).2.quiz_questions.take db.quiz_questions.length =
      db.quiz_questions ∧
    ((create_quiz difficulty quiz utc db).2.quiz_questions.drop db.quiz_questions.length).map
        (fun q => (q.question, q.options, q.right_option, q.topic_id)) =
      quiz.questions.map (fun q => (q.question, q.options, q.right_option, db.next_topic_id)) ∧
    (create_quiz difficulty quiz utc db).2.quiz_attempts = db.quiz_attempts ∧
    (create_quiz difficulty quiz utc db).2.user_profiles = db.user_profiles ∧
    (create_quiz difficulty quiz utc db).2.user_quiz_results = db.user_quiz_results ∧
    (create_quiz difficulty quiz utc db).2.user_question_answers = db.user_question_answers := by
  have hne : ¬ difficulty ∉ (["easy", "medium", "hard"] : List String) := not_not_intro hd
  refine ⟨?_, ?_, ?_, ?_, ?_, ?_, ?_, ?_, ?_⟩ <;>
    simp only [create_quiz, if_neg hne]
  · simp [insertQuestions_length]
  · exact List.take_left _ _
  · rw [List.drop_left]
    exact insertQuestions_fields quiz.questions db.next_topic_id db.next_question_id

/-- Witness for C8: a one-question quiz at difficulty `"easy"` on an empty
database. -/
theorem create_quiz_persists_witness :
    (create_quiz "easy" ⟨"t", "c", "s", [⟨"q1", ["a", "b"], "a"⟩]⟩ ⟨0, "Monday", 0⟩
        ⟨[], [], [], [], [], [], 1, 1, 1, 1, 1⟩).2.quiz_topics =
      [⟨1, "t", "c", "s", some ⟨0, "Monday", 0⟩, none⟩] :=
  (create_quiz_persists "easy" ⟨"t", "c", "s", [⟨"q1", ["a", "b"], "a"⟩]⟩ ⟨0, "Monday", 0⟩
    ⟨[], [], [], [], [], [], 1, 1, 1, 1, 1⟩ (by decide)).2.1

/-- C7: fetching a quiz by topic id 404s ("Quiz topic not found") iff no
`QuizTopic` row has that id; otherwise the response carries the topic's fields
and one entry (question, options, right_option) per stored `QuizQuestion` whose
`topic_id` equals the requested id; the database is unchanged either way. -/
theorem get_quiz_topic_lookup (topic_id : Int) (db : DB) :
    ((get_quiz topic_id db).1 = .error ⟨404, "Quiz topic not found"⟩ ↔
      ∀ t ∈ db.quiz_topics, t.id ≠ topic_id) ∧
    (get_quiz topic_id db).2 = db ∧
    (∀ t, db.quiz_topics.find? (fun r => r.id == topic_id) = some t →
      (get_quiz topic_id db).1 = .ok
        ⟨t.topic, t.category, t.subcategory, t.creation_timestamp,
          (db.quiz_questions.filter (fun q => q.topic_id == topic_id)).map
            (fun q => ⟨q.question, q.options, q.right_option⟩)⟩) := by
  refine ⟨?_, ?_, ?_⟩
  · cases hf : db.quiz_topics.find? (fun t => t.id == topic_id) with
    | none =>
      simp only [get_quiz, hf]
      constructor
      · intro _ t ht
        have hnp := List.find?_eq_none.mp hf t ht
        simpa using hnp
      · intro _
        trivial
    | some t =>
      simp only [get_quiz, hf]
      constructor
      · intro h
        exact absurd h (by simp)
      · intro hall
        have hmem := List.mem_of_find?_eq_some hf
        have hp := List.find?_some hf
        exact absurd (by simpa using hp) (hall t hmem)
  · cases hf : db.quiz_topics.find? (fun t => t.id == topic_id) <;> simp [get_quiz, hf]
  · intro t hf
    simp [get_quiz, hf]

/-- Witness for C7: an empty database has no topic with id 1, so the endpoint
404s and leaves the database unchanged. -/
theorem get_quiz_topic_lookup_witness :
    (get_quiz 1 ⟨[], [], [], [], [], [], 1, 1, 1, 1, 1⟩).1 =
      .error ⟨404, "Quiz topic not found"⟩ :=
  (get_quiz_topic_lookup 1 ⟨[], [], [], [], [], [], 1, 1, 1, 1, 1⟩).1.mpr (by decide)

/-- C1: the stored streak is the number of trailing consecutive correct answers
of the answers sorted ascending by `question_id`: the sorted list splits as
`front ++ back` with `back` all correct, `streak = back.length`, and `front`
either empty or ending in an incorrect answer (the loop stops at the first
incorrect one from the end); the sort is an ascending permutation of the
submitted answers, and an empty answers list yields streak 0. -/
theorem streak_trailing_correct (answers : List QuestionAnswerSubmit) :
    (answers.mergeSort byQuestionId).Perm answers ∧
    List.Pairwise (fun a b => a.question_id ≤ b.question_id) (answers.mergeSort byQuestionId) ∧
    (∃ front back,
      answers.mergeSort byQuestionId = front ++ back ∧
      streakOf answers = (back.length : Int) ∧
      (∀ a ∈ back, a.is_correct = true) ∧
      (front = [] ∨ ∃ l, front.getLast? = some l ∧ l.is_correct = false)) ∧
    (answers = [] → streakOf answers = 0) := by
  refine ⟨List.mergeSort_perm answers byQuestionId, ?_, ?_, ?_⟩
  · have h := @List.sorted_mergeSort QuestionAnswerSubmit byQuestionId
      (fun a b c hab hbc => by
        simp only [byQuestionId, decide_eq_true_eq] at *
        exact le_trans hab hbc)
      (fun a b => by
        simp only [byQuestionId, Bool.or_eq_true, decide_eq_true_eq]
        exact le_total a.question_id b.question_id)
      answers
    exact h.imp (fun hab => by simpa [byQuestionId] using hab)
  · cases answers with
    | nil =>
      exact ⟨[], [], by simp, rfl, by simp, Or.inl rfl⟩
    | cons a as =>
      set s := (a :: as).mergeSort byQuestionId with hs
      refine ⟨(s.reverse.dropWhile (fun x => x.is_correct)).reverse,
              (s.reverse.takeWhile (fun x => x.is_correct)).reverse, ?_, ?_, ?_, ?_⟩
      · conv_rhs => rw [← List.reverse_append]
        rw [List.takeWhile_append_dropWhile, List.reverse_reverse]
      · simp only [streakOf]
        rw [← hs, List.length_reverse]
      · intro x hx
        rw [List.mem_reverse] at hx
        exact List.mem_takeWhile_imp hx
      · have h := List.head?_dropWhile_not (fun x => x.is_correct) s.reverse
        cases hd : (s.reverse.dropWhile (fun x => x.is_correct)).head? with
        | none =>
          left
          rw [List.head?_eq_none_iff] at hd
          simp [hd]
        | some x =>
          right
          refine ⟨x, ?_, ?_⟩
          · rw [List.getLast?_reverse]
            exact hd
          · rw [hd] at h
            simpa using h
  · rintro rfl
    rfl

/-- C10: an unknown `firebase_uid` is treated asymmetrically: `/quiz/start`
creates a `UserProfile` row with that uid and proceeds (it never answers
"User not found"), while `/quiz/submit` and the quiz-history endpoint answer
404 "User not found" and leave the database unchanged. -/
theorem unknown_user_asymmetry (firebase_uid : String) (db : DB)
    (hu : ∀ u ∈ db.user_profiles, u.firebase_uid ≠ firebase_uid) :
    (∀ (topic_id : Int) (utc : UTCTime),
      (start_quiz firebase_uid topic_id utc db).2.user_profiles =
        db.user_profiles ++ [⟨db.next_user_id, firebase_uid, none, none, some utc⟩] ∧
      (start_quiz firebase_uid topic_id utc db).1 ≠ .error ⟨404, "User not found"⟩) ∧
    (∀ (req : QuizResultSubmit) (utc1 utc2 utc3 : UTCTime), req.firebase_uid = firebase_uid →
      submit_quiz_result req utc1 utc2 utc3 db = (.error ⟨404, "User not found"⟩, db)) ∧
    get_user_quiz_history firebase_uid db = (.error ⟨404, "User not found"⟩, db) := by
  have hfind : db.user_profiles.find? (fun u => u.firebase_uid == firebase_uid) = none :=
    List.find?_eq_none.mpr (fun u hmem => by simpa using hu u hmem)
  refine ⟨?_, ?_, ?_⟩
  · intro topic_id utc
    constructor
    · simp only [start_quiz, hfind]
      cases htop :
          db.quiz_topics.find? (fun t => t.id == topic_id) <;>
        simp [htop]
    · simp only [start_quiz, hfind]
      cases htop :
          db.quiz_topics.find? (fun t => t.id == topic_id) with
      | none => simp [htop]
      | some t => simp [htop]
  · intro req utc1 utc2 utc3 hreq
    simp only [submit_quiz_result, hreq, hfind]
  · simp only [get_user_quiz_history, hfind]

/-- Witness for C10: the empty database has no profiles, so the quiz-history
endpoint 404s for uid "nobody" and leaves the database unchanged. -/
theorem unknown_user_asymmetry_witness :
    get_user_quiz_history "nobody" ⟨[], [], [], [], [], [], 1, 1, 1, 1, 1⟩ =
      (.error ⟨404, "User not found"⟩, ⟨[], [], [], [], [], [], 1, 1, 1, 1, 1⟩) :=
  (unknown_user_asymmetry "nobody" ⟨[], [], [], [], [], [], 1, 1, 1, 1, 1⟩
    (by simp)).2.2

/-- C5: submitting a quiz result is an upsert keyed on
(user, topic, completed=False): an existing incomplete result row is updated in
place with the submitted and derived fields and no new result row is added,
otherwise exactly one new result row is added; in both cases one
`UserQuestionAnswer` row is appended per submitted answer, the topic's
`last_attempt_date` is set to the submission time, and the topic's other fields
(and the other tables) are unchanged. -/
theorem submit_quiz_upsert (req : QuizResultSubmit) (utc1 utc2 utc3 : UTCTime) (db : DB)
    (u : UserProfile) (t0 : QuizTopic)
    (hu : db.user_profiles.find? (fun x => x.firebase_uid == req.firebase_uid) = some u)
    (ht : db.quiz_topics.find? (fun x => x.id == req.topic_id) = some t0) :
    (∃ resp, (submit_quiz_result req utc1 utc2 utc3 db).1 = .ok resp) ∧
    (submit_quiz_result req utc1 utc2 utc3 db).2.user_question_answers.length =
      db.user_question_answers.length + req.answers.length ∧
    (submit_quiz_result req utc1 utc2 utc3 db).2.user_question_answers.take
        db.user_question_answers.length = db.user_question_answers ∧
    ((submit_quiz_result req utc1 utc2 utc3 db).2.user_question_answers.drop
          db.user_question_answers.length).map
        (fun a => (a.question_id, a.user_answer, a.is_correct, a.time_taken, a.confidence_level)) =
      req.answers.map
        (fun a =>
          (a.question_id, some a.user_answer, a.is_correct, a.time_taken, a.confidence_level)) ∧
    List.Forall₂
      (fun r r' => r'.id = r.id ∧ r'.topic = r.topic ∧ r'.category = r.category ∧
        r'.subcategory = r.subcategory ∧ r'.creation_timestamp = r.creation_timestamp)
      db.quiz_topics (submit_quiz_result req utc1 utc2 utc3 db).2.quiz_topics ∧
    (∃ r' ∈ (submit_quiz_result req utc1 utc2 utc3 db).2.quiz_topics,
      r'.id = req.topic_id ∧ r'.last_attempt_date = some utc1) ∧
    (∀ r0, db.user_quiz_results.find? (incompleteFor u.id req.topic_id) = some r0 →
      (submit_quiz_result req utc1 utc2 utc3 db).2.user_quiz_results.length =
        db.user_quiz_results.length ∧
      ∃ l1 l2, db.user_quiz_results = l1 ++ r0 :: l2 ∧
        (submit_quiz_result req utc1 utc2 utc3 db).2.user_quiz_results =
          l1 ++
            ({ r0 with
                score := req.score, total_questions := req.total_questions,
                correct_answers := req.correct_answers, time_taken := req.time_taken,
                completed := req.completed, completed_at := some utc2,
                day_of_week := some utc2.weekday, time_of_day := some (timeOfDay utc2.hour),
                average_time_per_question := avgTimePerQuestion req.time_taken req.total_questions,
                difficulty_level := difficultyLevel req.score, streak := streakOf req.answers,
                quiz_context := req.quiz_context } : UserQuizResult) :: l2) ∧
    (db.user_quiz_results.find? (incompleteFor u.id req.topic_id) = none →
      (submit_quiz_result req utc1 utc2 utc3 db).2.user_quiz_results =
        db.user_quiz_results ++
          [⟨db.next_result_id, u.id, req.topic_id, req.score, req.total_questions,
            req.correct_answers, req.time_taken, req.completed, some (req.started_at.getD utc3),
            some utc2, some utc2.weekday, some (timeOfDay utc2.hour),
            avgTimePerQuestion req.time_taken req.total_questions, difficultyLevel req.score,
            streakOf req.answers, req.quiz_context⟩]) ∧
    (submit_quiz_result req utc1 utc2 utc3 db).2.quiz_questions = db.quiz_questions ∧
    (submit_quiz_result req utc1 utc2 utc3 db).2.quiz_attempts = db.quiz_attempts ∧
    (submit_quiz_result req utc1 utc2 utc3 db).2.user_profiles = db.user_profiles := by
  cases hf : db.user_quiz_results.find? (incompleteFor u.id req.topic_id) with
  | none =>
    have hS : submit_quiz_result req utc1 utc2 utc3 db =
        (.ok ⟨"success", db.next_result_id, req.score, req.correct_answers,
            req.total_questions, difficultyLevel req.score, some utc2, some utc2.weekday,
            some (timeOfDay utc2.hour)⟩,
         { db with
             quiz_topics := updateFirst (fun t => t.id == req.topic_id)
               (fun t => { t with last_attempt_date := some utc1 }) db.quiz_topics,
             user_quiz_results := db.user_quiz_results ++
               [⟨db.next_result_id, u.id, req.topic_id, req.score, req.total_questions,
                 req.correct_answers, req.time_taken, req.completed,
                 some (req.started_at.getD utc3), some utc2, some utc2.weekday,
                 some (timeOfDay utc2.hour),
                 avgTimePerQuestion req.time_taken req.total_questions,
                 difficultyLevel req.score, streakOf req.answers, req.quiz_context⟩],
             user_question_answers := db.user_question_answers ++
               insertAnswers req.answers db.next_result_id db.next_answer_id,
             next_result_id := db.next_result_id + 1,
             next_answer_id := db.next_answer_id + (req.answers.length : Int) }) := by
      simp only [submit_quiz_result, hu, ht, hf]
    rw [hS]
    refine ⟨⟨_, rfl⟩, ?_, ?_, ?_, ?_, ?_, ?_, ?_, rfl, rfl, rfl⟩
    · simp [insertAnswers_length]
    · exact List.take_left _ _
    · rw [List.drop_left]
      exact insertAnswers_fields req.answers db.next_result_id db.next_answer_id
    · exact updateFirst_forall₂_topics req.topic_id utc1 db.quiz_topics
    · exact updateFirst_mem_updated_topic req.topic_id utc1 db.quiz_topics t0 ht
    · intro r0 hr0
      exact Option.noConfusion hr0
    · intro _
      rfl
  | some r0 =>
    have hS : submit_quiz_result req utc1 utc2 utc3 db =
        (.ok ⟨"success", r0.id, req.score, req.correct_answers,
            req.total_questions, difficultyLevel req.score, some utc2, some utc2.weekday,
            some (timeOfDay utc2.hour)⟩,
         { db with
             quiz_topics := updateFirst (fun t => t.id == req.topic_id)
               (fun t => { t with last_attempt_date := some utc1 }) db.quiz_topics,
             user_quiz_results := updateFirst (incompleteFor u.id req.topic_id)
               (fun _ =>
                 { r0 with
                     score := req.score, total_questions := req.total_questions,
                     correct_answers := req.correct_answers, time_taken := req.time_taken,
                     completed := req.completed, completed_at := some utc2,
                     day_of_week := some utc2.weekday,
                     time_of_day := some (timeOfDay utc2.hour),
                     average_time_per_question :=
                       avgTimePerQuestion req.time_taken req.total_questions,
                     difficulty_level := difficultyLevel req.score,
                     streak := streakOf req.answers, quiz_context := req.quiz_context })
               db.user_quiz_results,
             user_question_answers := db.user_question_answers ++
               insertAnswers req.answers r0.id db.next_answer_id,
             next_answer_id := db.next_answer_id + (req.answers.length : Int) }) := by
      simp only [submit_quiz_result, hu, ht, hf]
    rw [hS]
    refine ⟨⟨_, rfl⟩, ?_, ?_, ?_, ?_, ?_, ?_, ?_, rfl, rfl, rfl⟩
    · simp [insertAnswers_length]
    · exact List.take_left _ _
    · rw [List.drop_left]
      exact insertAnswers_fields req.answers r0.id db.next_answer_id
    · exact updateFirst_forall₂_topics req.topic_id utc1 db.quiz_topics
    · exact updateFirst_mem_updated_topic req.topic_id utc1 db.quiz_topics t0 ht
    · intro r1 hr1
      obtain rfl : r0 = r1 := Option.some.inj hr1
      refine ⟨length_updateFirst _ _ _, ?_⟩
      obtain ⟨hp, l1, l2, heq, hnotp⟩ := List.find?_eq_some.mp hf
      refine ⟨l1, l2, heq, ?_⟩
      rw [heq]
      exact updateFirst_append_of_none _ _ l1 l2 r0
        (fun x hx => by simpa using hnotp x hx) hp
    · intro hnone
      exact Option.noConfusion hnone

/-- Witness for C5: submitting for a known user and topic with no incomplete
result row adds exactly one new completed result row. -/
theorem submit_quiz_upsert_witness :
    (submit_quiz_result ⟨"u1", 1, 1, 1, 1, none, true, none, [], none⟩ ⟨8, "Monday", 0⟩
        ⟨8, "Monday", 0⟩ ⟨8, "Monday", 0⟩
        ⟨[⟨1, "T", "C", "S", none, none⟩], [], [], [⟨1, "u1", none, none, none⟩], [], [],
          2, 1, 2, 1, 1⟩).2.user_quiz_results =
      [⟨1, 1, 1, 1, 1, 1, none, true, some ⟨8, "Monday", 0⟩, some ⟨8, "Monday", 0⟩,
        some "Monday", some "Morning", none, some "Easy", 0, none⟩] := by
  have h := submit_quiz_upsert ⟨"u1", 1, 1, 1, 1, none, true, none, [], none⟩
    ⟨8, "Monday", 0⟩ ⟨8, "Monday", 0⟩ ⟨8, "Monday", 0⟩
    ⟨[⟨1, "T", "C", "S", none, none⟩], [], [], [⟨1, "u1", none, none, none⟩], [], [],
      2, 1, 2, 1, 1⟩
    ⟨1, "u1", none, none, none⟩ ⟨1, "T", "C", "S", none, none⟩ (by decide) (by decide)
  have h8 := h.2.2.2.2.2.2.2.1 rfl
  rw [h8]
  norm_num [difficultyLevel, avgTimePerQuestion, streakOf, timeOfDay]

/-- C6: the quiz-history statistics are derived exactly from the user's
completed results: `total_quizzes` is their count, `average_score` is the sum
of their scores divided by that count (0 when there are none, with no division
performed), and in each of the three counting dicts every key's count equals
the number of completed results carrying that value (stated for every non-empty
string; the empty string is never a key), results with a null field being
counted nowhere; the database is unchanged. -/
theorem history_statistics (firebase_uid : String) (db : DB) (u : UserProfile)
    (hu : db.user_profiles.find? (fun x => x.firebase_uid == firebase_uid) = some u) :
    (get_user_quiz_history firebase_uid db).2 = db ∧
    (get_user_quiz_history firebase_uid db).1.map (fun r => r.statistics.total_quizzes) =
      .ok (completedResultsFor u.id db).length ∧
    (get_user_quiz_history firebase_uid db).1.map (fun r => r.statistics.average_score) =
      .ok (if (completedResultsFor u.id db).length = 0 then 0
        else ((completedResultsFor u.id db).map (fun r => r.score)).sum /
          ((completedResultsFor u.id db).length : ℚ)) ∧
    (∀ s : String, s ≠ "" →
      (get_user_quiz_history firebase_uid db).1.map
          (fun r => lookupCount r.statistics.quizzes_by_day s) =
        .ok ((completedResultsFor u.id db).filter (fun r => r.day_of_week == some s)).length) ∧
    (get_user_quiz_history firebase_uid db).1.map
        (fun r => lookupCount r.statistics.quizzes_by_day "") = .ok 0 ∧
    (∀ s : String, s ≠ "" →
      (get_user_quiz_history firebase_uid db).1.map
          (fun r => lookupCount r.statistics.quizzes_by_time s) =
        .ok ((completedResultsFor u.id db).filter (fun r => r.time_of_day == some s)).length) ∧
    (get_user_quiz_history firebase_uid db).1.map
        (fun r => lookupCount r.statistics.quizzes_by_time "") = .ok 0 ∧
    (∀ s : String, s ≠ "" →
      (get_user_quiz_history firebase_uid db).1.map
          (fun r => lookupCount r.statistics.quizzes_by_difficulty s) =
        .ok ((completedResultsFor u.id db).filter
          (fun r => r.difficulty_level == some s)).length) ∧
    (get_user_quiz_history firebase_uid db).1.map
        (fun r => lookupCount r.statistics.quizzes_by_difficulty "") = .ok 0 := by
  have hperm : ((db.user_quiz_results.filter
      (fun r => r.user_id == u.id && r.completed == true)).mergeSort completedAtDesc).Perm
      (db.user_quiz_results.filter (fun r => r.user_id == u.id && r.completed == true)) :=
    List.mergeSort_perm _ _
  refine ⟨?_, ?_, ?_, ?_, ?_, ?_, ?_, ?_, ?_⟩
  · simp only [get_user_quiz_history, hu]
  · simp only [get_user_quiz_history, hu, Except.map, completedResultsFor]
    rw [List.length_map]
    exact congrArg Except.ok hperm.length_eq
  · simp only [get_user_quiz_history, hu, Except.map, completedResultsFor]
    refine congrArg Except.ok ?_
    have hsc : (((db.user_quiz_results.filter
          (fun r => r.user_id == u.id && r.completed == true)).mergeSort
            completedAtDesc).map (mkHistoryEntry db)).map (fun e => e.score) =
        ((db.user_quiz_results.filter
          (fun r => r.user_id == u.id && r.completed == true)).mergeSort
            completedAtDesc).map (fun r => r.score) := by
      rw [List.map_map]
      exact List.map_congr_left (fun a _ => rfl)
    by_cases hemp : (db.user_quiz_results.filter
        (fun r => r.user_id == u.id && r.completed == true)).length = 0
    · rw [if_pos hemp]
      have : ((((db.user_quiz_results.filter
          (fun r => r.user_id == u.id && r.completed == true)).mergeSort
            completedAtDesc).map (mkHistoryEntry db)).isEmpty) = true := by
        rw [List.isEmpty_iff_length_eq_zero, List.length_map, hperm.length_eq]
        exact hemp
      rw [if_pos this]
    · have : ((((db.user_quiz_results.filter
          (fun r => r.user_id == u.id && r.completed == true)).mergeSort
            completedAtDesc).map (mkHistoryEntry db)).isEmpty) ≠ true := by
        intro hcontra
        rw [List.isEmpty_iff_length_eq_zero, List.length_map, hperm.length_eq] at hcontra
        exact hemp hcontra
      rw [if_neg this, if_neg hemp, hsc, (hperm.map (fun r => r.score)).sum_eq,
        List.length_map, hperm.length_eq]
  · intro s hs
    simp only [get_user_quiz_history, hu, Except.map, completedResultsFor]
    refine congrArg Except.ok ?_
    rw [lookupCount_countByField _ s hs, List.filter_map, List.length_map,
      List.filter_congr (fun (x : UserQuizResult) _ =>
        (rfl : ((fun e => e.day_of_week == some s) ∘ mkHistoryEntry db) x =
          (fun r => r.day_of_week == some s) x))]
    exact (hperm.filter _).length_eq
  · simp only [get_user_quiz_history, hu, Except.map]
    exact congrArg Except.ok (lookupCount_countByField_blank _ _)
  · intro s hs
    simp only [get_user_quiz_history, hu, Except.map, completedResultsFor]
    refine congrArg Except.ok ?_
    rw [lookupCount_countByField _ s hs, List.filter_map, List.length_map,
      List.filter_congr (fun (x : UserQuizResult) _ =>
        (rfl : ((fun e => e.time_of_day == some s) ∘ mkHistoryEntry db) x =
          (fun r => r.time_of_day == some s) x))]
    exact (hperm.filter _).length_eq
  · simp only [get_user_quiz_history, hu, Except.map]
    exact congrArg Except.ok (lookupCount_countByField_blank _ _)
  · intro s hs
    simp only [get_user_quiz_history, hu, Except.map, completedResultsFor]
    refine congrArg Except.ok ?_
    rw [lookupCount_countByField _ s hs, List.filter_map, List.length_map,
      List.filter_congr (fun (x : UserQuizResult) _ =>
        (rfl : ((fun e => e.difficulty_level == some s) ∘ mkHistoryEntry db) x =
          (fun r => r.difficulty_level == some s) x))]
    exact (hperm.filter _).length_eq
  · simp only [get_user_quiz_history, hu, Except.map]
    exact congrArg Except.ok (lookupCount_countByField_blank _ _)

/-- Witness for C6: a user with exactly one completed result has
`total_quizzes = 1`. -/
theorem history_statistics_witness :
    (get_user_quiz_history "u1"
        ⟨[], [], [], [⟨1, "u1", none, none, none⟩],
          [⟨1, 1, 1, 1, 1, 1, none, true, none, none, some "Monday", some "Morning", none,
            some "Easy", 0, none⟩],
          [], 1, 1, 2, 2, 1⟩).1.map (fun r => r.statistics.total_quizzes) = .ok 1 := by
  have h := (history_statistics "u1"
    ⟨[], [], [], [⟨1, "u1", none, none, none⟩],
      [⟨1, 1, 1, 1, 1, 1, none, true, none, none, some "Monday", some "Morning", none,
        some "Easy", 0, none⟩],
      [], 1, 1, 2, 2, 1⟩ ⟨1, "u1", none, none, none⟩ rfl).2.1
  rw [h]
  rfl

/-- Witness for C1: the empty answers list yields streak 0. -/
theorem streak_trailing_correct_witness : streakOf [] = 0 :=
  (streak_trailing_correct []).2.2.2 rfl
